import Mathlib

/-!
Shallow embedding of `mx3tools/ovftools.py` (OVF vector-field decoder).

Modelling conventions, chosen so every definition is executable and
kernel-reducible:

* A file is a byte stream, `ByteStream := List Nat` (each entry one byte value).
* Python `str` values are modelled as `List Char`; the header bytes of the
  files in question are ASCII, for which `bytes.decode()` is the characterwise
  map `Char.ofNat` and Python string operations coincide with the
  characterwise operations defined below.
* IEEE-754 floats are modelled as exact rationals.  Every finite float is a
  dyadic rational, so decoding is exact; the arithmetic the claims exercise
  (multiplication by small integer multipliers, equality tests against the
  magic byte-order constants) is exact in double precision, hence the
  rational model agrees with Python float semantics on all inputs used here.
  Rationals are carried unnormalised (`Q`, a numerator/denominator pair with
  positive denominator) because `Rat` normalisation does not reduce in the
  kernel; value equality is the cross-multiplication test `Q.veq`.
  Non-finite floats (NaN and the infinities) are modelled as `Option.none`.
* Python control flow is modelled by `PyOut`: a normal value, a raised
  exception (`PyError` names the exception class reached), or divergence
  (an infinite loop).  Loops whose iteration count is data-dependent are
  written with explicit fuel that provably suffices, so all recursion is
  structural and concrete runs evaluate by `decide`/`rfl`.
-/

set_option maxRecDepth 8192

/-- Exact rational value: numerator and (positive, by construction)
denominator, not normalised. -/
structure Q where
  num : Int
  den : Int
deriving DecidableEq, Repr

/-- Multiplication of exact rationals (no normalisation). -/
def Q.mul (a b : Q) : Q := ⟨a.num * b.num, a.den * b.den⟩

/-- Value equality of exact rationals by cross-multiplication; this is the
model of Python float equality on finite values. -/
def Q.veq (a b : Q) : Bool := a.num * b.den == b.num * a.den

/-- A decoded cell value: `some q` for a finite float, `none` for NaN or an
infinity (which never compare equal to a finite constant). -/
abbrev Val : Type := Option Q

/-- Python exceptions reached by the code paths modelled here.  Each
constructor names the exception class the interpreter would raise. -/
inductive PyError
  /-- Sequence index out of range. -/
  | indexError
  /-- Invalid literal passed to float()/int(), or invalid numpy shape. -/
  | valueError
  /-- Dictionary lookup with an absent key. -/
  | keyError
  /-- struct.unpack applied to a buffer whose length differs from the format size. -/
  | structError
  /-- numpy ndarray constructed over a buffer with too few bytes. -/
  | typeErrorBuffer
  /-- The builtin hex() applied to a bytes object (bytes has no __index__). -/
  | typeErrorHexBytes
  /-- Name referenced before any assignment. -/
  | nameError
  /-- Explicit raise NotImplementedError. -/
  | notImplementedError
deriving DecidableEq, Repr

/-- Outcome of running a piece of Python code: a returned value, a raised
exception, or divergence (the code loops forever). -/
inductive PyOut (α : Type)
  | ret (a : α)
  | raise (e : PyError)
  | diverge
deriving DecidableEq, Repr

/-- True exactly when the outcome is a raised exception. -/
def PyOut.isRaise : PyOut α → Bool
  | .raise _ => true
  | _ => false

/-- Byte stream: the remaining contents of the opened file. -/
abbrev ByteStream : Type := List Nat

/-- Model of file.read(n): nonnegative n returns min(n, available) bytes;
negative n reads to end of stream.  Returns (bytes read, rest of stream). -/
def pyRead (s : ByteStream) (n : Int) : List Nat × ByteStream :=
  if n < 0 then (s, []) else (List.take n.toNat s, List.drop n.toNat s)

/-- Model of file.readline(): bytes up to and including the first newline
(byte 10), or the whole rest of the stream if it has no newline.  At end of
stream it returns the empty byte string and consumes nothing. -/
def pyReadline (s : ByteStream) : List Nat × ByteStream :=
  match List.findIdx? (fun b => b == 10) s with
  | some i => (List.take (i + 1) s, List.drop (i + 1) s)
  | none => (s, [])

/-- Model of bytes.decode() for the ASCII content of OVF headers: the
characterwise decoding of the byte values. -/
def decodeAscii (bs : List Nat) : List Char := bs.map Char.ofNat

/-- Shorthand turning a Lean string literal into the `List Char` model of a
Python str. -/
def STR (s : String) : List Char := s.toList

/-- Encoding of an ASCII string as file bytes (used to build the concrete
test files below). -/
def asciiBytes (s : String) : List Nat := s.toList.map Char.toNat

/-- Characterwise prefix test on modelled strings. -/
def isPrefixL : List Char → List Char → Bool
  | [], _ => true
  | _ :: _, [] => false
  | a :: as, b :: bs => a == b && isPrefixL as bs

/-- Model of the Python expression pat in s (substring containment). -/
def containsL (pat : List Char) : List Char → Bool
  | [] => isPrefixL pat []
  | s@(_ :: rest) => isPrefixL pat s || containsL pat rest

/-- Leading-whitespace removal on modelled strings. -/
def trimLeftL : List Char → List Char
  | [] => []
  | c :: r => if c.isWhitespace then trimLeftL r else c :: r

/-- Model of Python str.strip() (and bytes.strip()): whitespace removed from
both ends. -/
def stripL (s : List Char) : List Char :=
  (trimLeftL (trimLeftL s.reverse).reverse)

/-- Worker for `splitOnL`, with fuel bounding the number of characters
scanned; fuel `s.length + 1` always suffices. -/
def splitOnGo (sep : List Char) : Nat → List Char → List Char → List (List Char)
  | _, [], acc => [acc.reverse]
  | 0, s, acc => [acc.reverse ++ s]
  | f + 1, s@(c :: rest), acc =>
    if sep ≠ [] && isPrefixL sep s then
      acc.reverse :: splitOnGo sep f (List.drop sep.length s) []
    else
      splitOnGo sep f rest (c :: acc)

/-- Model of Python str.split(sep) with an explicit separator: left-to-right
scan for non-overlapping occurrences. -/
def splitOnL (sep s : List Char) : List (List Char) :=
  splitOnGo sep (s.length + 1) s []

/-- Worker for `splitWS`: accumulates the current token. -/
def splitWSGo : List Char → List Char → List (List Char)
  | [], acc => if acc.isEmpty then [] else [acc.reverse]
  | c :: rest, acc =>
    if c.isWhitespace then
      if acc.isEmpty then splitWSGo rest [] else acc.reverse :: splitWSGo rest []
    else
      splitWSGo rest (c :: acc)

/-- Model of Python str.split() with no argument (and bytes.split()): split
on whitespace runs, discarding empty tokens. -/
def splitWS (s : List Char) : List (List Char) :=
  splitWSGo s []

/-- Joins string pieces with a separator (used to model str.split(sep, 2)
keeping the tail segment intact). -/
def joinWith (sep : List Char) : List (List Char) → List Char
  | [] => []
  | [x] => x
  | x :: r@(_ :: _) => x ++ sep ++ joinWith sep r

/-- Reads leading decimal digits: value, number of digits, rest. -/
def readDigits : List Char → Nat × Nat × List Char
  | [] => (0, 0, [])
  | c :: r =>
    if c.isDigit then
      let (v, n, rest) := readDigits r
      -- value of the digit string c :: prefix of r
      (let d := c.toNat - 48
       (d * 10 ^ n + v, n + 1, rest))
    else (0, 0, c :: r)

/-- Splits an optional leading sign, returning the sign as ±1. -/
def readSign : List Char → Int × List Char
  | '+' :: r => (1, r)
  | '-' :: r => (-1, r)
  | s => (1, s)

/-- Model of the Python builtin float() on the decimal literals appearing in
OVF headers: optional sign, digits with optional fraction, optional
exponent.  Returns the exact rational value, or `none` when Python would
raise ValueError.  (Exotic accepted spellings such as inf, nan and
underscore separators do not occur in these files and are not modelled.) -/
def parsePyFloat (s : List Char) : Option Q :=
  let t := stripL s
  let (sg, t1) := readSign t
  let (ip, ipn, r1) := readDigits t1
  let (fp, fpn, r2) :=
    match r1 with
    | '.' :: r => readDigits r
    | _ => (0, 0, r1)
  if ipn + fpn == 0 then none
  else
    let mant : Int := sg * (ip * 10 ^ fpn + fp)
    match r2 with
    | [] => some (if fpn == 0 then ⟨mant, 1⟩ else ⟨mant, 10 ^ fpn⟩)
    | e :: r3 =>
      if e == 'e' || e == 'E' then
        let (esg, r4) := readSign r3
        let (ev, en, r5) := readDigits r4
        if en == 0 || !r5.isEmpty then none
        else
          let ex : Int := esg * ev - fpn
          some (if 0 ≤ ex then ⟨mant * 10 ^ ex.toNat, 1⟩ else ⟨mant, 10 ^ (-ex).toNat⟩)
      else none

/-- Model of the Python builtin int() on a string: optional sign and digits
only; `none` when Python would raise ValueError. -/
def parsePyInt (s : List Char) : Option Int :=
  let t := stripL s
  let (sg, t1) := readSign t
  let (v, n, r) := readDigits t1
  if n == 0 || !r.isEmpty then none else some (sg * v)

/-- Model of the Python builtin int() applied to a float: truncation toward
zero. -/
def pyIntOfQ (q : Q) : Int := q.num.tdiv q.den

/-- Big-endian value of a byte list (most significant byte first). -/
def beNat (bs : List Nat) : Nat := bs.foldl (fun a b => a * 256 + b) 0

/-- Big-endian byte list of width w for a value (used to build test files). -/
def natToBytesBE (w n : Nat) : List Nat :=
  (List.range w).map (fun i => n / 256 ^ (w - 1 - i) % 256)

/-- Counts factors of two of m, with fuel (64 always suffices for the word
sizes here); used only to present decoded dyadic values in lowest terms. -/
def twoAdicVal : Nat → Nat → Nat
  | 0, _ => 0
  | f + 1, m => if m % 2 == 0 && m != 0 then twoAdicVal f (m / 2) + 1 else 0

/-- The dyadic rational sign * m * 2 ^ e, with powers of two cancelled so
that concrete decoded values print in lowest terms. -/
def dyadic (sign : Int) (m : Nat) (e : Int) : Q :=
  if m == 0 then ⟨0, 1⟩
  else if 0 ≤ e then ⟨sign * m * 2 ^ e.toNat, 1⟩
  else
    let k := (-e).toNat
    let t := min (twoAdicVal 64 m) k
    ⟨sign * (m / 2 ^ t), 2 ^ (k - t)⟩

/-- Exact value of an IEEE-754 binary word with the given fraction and
exponent field widths (23/8 for single, 52/11 for double precision):
`some` of the exact rational for finite values, `none` for NaN/infinity. -/
def decodeIEEE (fracBits expBits word : Nat) : Val :=
  let frac := word % 2 ^ fracBits
  let ex := word / 2 ^ fracBits % 2 ^ expBits
  let sign : Int := if word / 2 ^ (fracBits + expBits) % 2 == 1 then -1 else 1
  let bias : Int := 2 ^ (expBits - 1) - 1
  if ex == 2 ^ expBits - 1 then none
  else if ex == 0 then some (dyadic sign frac (1 - bias - fracBits))
  else some (dyadic sign (2 ^ fracBits + frac) ((ex : Int) - bias - fracBits))

/-- Value of w bytes interpreted as a big-endian IEEE float (w = 4) or
double (w = 8); this is the model of struct.unpack with formats >f and >d
and of the numpy dtypes >f4 and >f8. -/
def decodeFloatBE (w : Nat) (bs : List Nat) : Val :=
  if w == 4 then decodeIEEE 23 8 (beNat bs) else decodeIEEE 52 11 (beNat bs)

/-- Resolved binary byte order, as selected by `_endianness`. -/
inductive ByteOrder
  | big
  | little
deriving DecidableEq, Repr

/-- Model of a struct format string / numpy dtype such as >f or <d: a byte
order together with the per-value width in bytes. -/
structure Dtype where
  order : ByteOrder
  width : Nat
deriving DecidableEq, Repr

/-- Value of a buffer of dtype-width bytes under the byte order of the dtype
(little-endian bytes are the reverse of big-endian ones). -/
def dtypeValue (dt : Dtype) (bs : List Nat) : Val :=
  decodeFloatBE dt.width (if dt.order == ByteOrder.big then bs else bs.reverse)

/-- Model of struct.unpack(fmt, buffer)[0] for the float/double formats:
raises struct.error unless the buffer length equals the format width. -/
def structUnpack1 (dt : Dtype) (bs : List Nat) : PyOut Val :=
  if bs.length == dt.width then .ret (dtypeValue dt bs) else .raise .structError

/-- The magic control-mark constants of the OVF format, keyed by byte width
(the value dict in `_endianness`); 0 is a placeholder for the widths on
which the Python dict lookup would raise KeyError first. -/
def magicValue (w : Nat) : Q :=
  if w == 4 then ⟨1234567, 1⟩ else if w == 8 then ⟨123456789012345, 1⟩ else ⟨0, 1⟩

/-- Model of float equality between a struct.unpack result and a finite
constant: NaN and the infinities (`none`) never compare equal. -/
def valEq (v : Val) (q : Q) : Bool :=
  match v with
  | some x => Q.veq x q
  | none => false

/-- Embedding of `_endianness(f, nbytes)` (ovftools.py lines 100-112): read
nbytes bytes, try them as a big-endian then a little-endian float/double
against the magic constant, and return the matching format.  When neither
matches, the source builds an IOError message with hex(buffer); hex() of a
bytes object raises TypeError, so that is the exception actually raised.
When nbytes is not a dict key (not 4 and not 8) the lookup big_endian[nbytes]
raises KeyError.  Returns the resolved dtype and the stream after the
consumed control mark. -/
def _endianness (s : ByteStream) (nbytes : Int) : PyOut (Dtype × ByteStream) :=
  let (buffer, rest) := pyRead s nbytes
  if nbytes == 4 || nbytes == 8 then
    let w := nbytes.toNat
    match structUnpack1 ⟨ByteOrder.big, w⟩ buffer with
    | .ret v =>
      if valEq v (magicValue w) then .ret (⟨ByteOrder.big, w⟩, rest)
      else
        match structUnpack1 ⟨ByteOrder.little, w⟩ buffer with
        | .ret v2 =>
          if valEq v2 (magicValue w) then .ret (⟨ByteOrder.little, w⟩, rest)
          else .raise .typeErrorHexBytes
        | .raise e => .raise e
        | .diverge => .diverge
    | .raise e => .raise e
    | .diverge => .diverge
  else .raise .keyError

/-- The header dictionary built by `_read_header`: the four provenance keys
are pre-seeded with their sentinel defaults, the geometry keys and
valuemultiplier are absent (`none`) until a matching line is parsed, and
data_type receives the whitespace-split marker line. -/
structure Headers where
  simTime : Q := ⟨-1, 1⟩
  iteration : Q := ⟨-1, 1⟩
  stage : Q := ⟨-1, 1⟩
  mifSource : List Char := []
  xbase : Option Q := none
  ybase : Option Q := none
  zbase : Option Q := none
  xstepsize : Option Q := none
  ystepsize : Option Q := none
  zstepsize : Option Q := none
  xnodes : Option Q := none
  ynodes : Option Q := none
  znodes : Option Q := none
  valuemultiplier : Option Q := none
  data_type : List (List Char) := []
deriving DecidableEq, Repr

/-- Stores a parsed float under one of the ten keys of the key loop in
`_read_header` (dictionary assignment headers[key] = value). -/
def Headers.setKey (h : Headers) (key : List Char) (v : Q) : Headers :=
  if key == STR "xbase" then { h with xbase := some v }
  else if key == STR "ybase" then { h with ybase := some v }
  else if key == STR "zbase" then { h with zbase := some v }
  else if key == STR "xstepsize" then { h with xstepsize := some v }
  else if key == STR "ystepsize" then { h with ystepsize := some v }
  else if key == STR "zstepsize" then { h with zstepsize := some v }
  else if key == STR "xnodes" then { h with xnodes := some v }
  else if key == STR "ynodes" then { h with ynodes := some v }
  else if key == STR "znodes" then { h with znodes := some v }
  else if key == STR "valuemultiplier" then { h with valuemultiplier := some v }
  else h

/-- The key list iterated by the for loop in `_read_header`. -/
def headerKeys : List (List Char) :=
  [STR "xbase", STR "ybase", STR "zbase", STR "xstepsize", STR "ystepsize",
   STR "zstepsize", STR "xnodes", STR "ynodes", STR "znodes",
   STR "valuemultiplier"]

/-- One iteration of the key loop: if the key occurs in the line, parse
float(line.split(": ")[1]) and store it (IndexError when the line has no
": ", ValueError when the remainder is not a float literal). -/
def applyKey (line : List Char) (h : Headers) (key : List Char) : PyOut Headers :=
  if containsL key line then
    match (splitOnL (STR ": ") line).get? 1 with
    | none => .raise .indexError
    | some seg =>
      match parsePyFloat seg with
      | none => .raise .valueError
      | some q => .ret (h.setKey key q)
  else .ret h

/-- The full key loop of `_read_header` over one line. -/
def keyLoop (line : List Char) : Headers → List (List Char) → PyOut Headers
  | h, [] => .ret h
  | h, k :: ks =>
    match applyKey line h k with
    | .ret h2 => keyLoop line h2 ks
    | .raise e => .raise e
    | .diverge => .diverge

/-- The provenance if/elif chain of `_read_header` over one line: the
SimTime, Iteration, Stage and MIFSource extraction rules. -/
def provenanceLine (line : List Char) (h : Headers) : PyOut Headers :=
  if containsL (STR "Total simulation time") line then
    -- float(line.split(":")[-1].strip().split()[0].strip())
    let seg := (splitOnL (STR ":") line).getLastD []
    match (splitWS (stripL seg)).get? 0 with
    | none => .raise .indexError
    | some tok =>
      match parsePyFloat (stripL tok) with
      | none => .raise .valueError
      | some q => .ret { h with simTime := q }
  else if containsL (STR "Iteration") line then
    -- float(line.split(":")[2].split(",")[0].strip())
    match (splitOnL (STR ":") line).get? 2 with
    | none => .raise .indexError
    | some seg =>
      match parsePyFloat (stripL ((splitOnL (STR ",") seg).getD 0 [])) with
      | none => .raise .valueError
      | some q => .ret { h with iteration := q }
  else if containsL (STR "Stage") line then
    match (splitOnL (STR ":") line).get? 2 with
    | none => .raise .indexError
    | some seg =>
      match parsePyFloat (stripL ((splitOnL (STR ",") seg).getD 0 [])) with
      | none => .raise .valueError
      | some q => .ret { h with stage := q }
  else if containsL (STR "MIF source file") line then
    -- line.split(":", 2)[2].strip(): everything after the second colon
    let parts := splitOnL (STR ":") line
    if parts.length < 3 then .raise .indexError
    else .ret { h with mifSource := stripL (joinWith (STR ":") (parts.drop 2)) }
  else .ret h

/-- The while loop of `_read_header` (lines 62-91): read a line, strip and
decode it, run the key loop and the provenance chain on it, and stop once
the line contains Begin: Data, storing line.split() as data_type.  At end
of stream readline() returns the empty byte string forever, so the loop
condition never becomes false and the call diverges.  The fuel counts loop
iterations; each iteration on a nonempty stream consumes at least one byte,
so fuel `s.length + 1` makes the zero-fuel arm unreachable. -/
def readHeaderLoop : Nat → ByteStream → Headers → PyOut (Headers × ByteStream)
  | _, [], _ => .diverge
  | 0, _ :: _, _ => .diverge
  | fuel + 1, s@(_ :: _), h =>
    let (lb, s2) := pyReadline s
    -- readline().strip().decode(); for ASCII bytes, stripping before or
    -- after decoding gives the same string
    let line := stripL (decodeAscii lb)
    match keyLoop line h headerKeys with
    | .raise e => .raise e
    | .diverge => .diverge
    | .ret h2 =>
      match provenanceLine line h2 with
      | .raise e => .raise e
      | .diverge => .diverge
      | .ret h3 =>
        if containsL (STR "Begin: Data") line then
          .ret ({ h3 with data_type := splitWS line }, s2)
        else readHeaderLoop fuel s2 h3

/-- Embedding of `_read_header(fobj)` (ovftools.py lines 46-93). -/
def _read_header (s : ByteStream) : PyOut (Headers × ByteStream) :=
  readHeaderLoop (s.length + 1) s {}

/-- The flat array of values materialised by the numpy ndarray constructor
over a raw buffer: count values, each read from dtype-width bytes at
consecutive stride-byte offsets (the strided views in the source are
C-contiguous: strides (3*chunk, chunk) for shape (n, 3) and (chunk, chunk)
for shape (n, 1), so element m starts at byte m*chunk). -/
def bufferValues (dt : Dtype) (stride : Nat) : Nat → List Nat → List Val
  | 0, _ => []
  | n + 1, bs => dtypeValue dt (List.take dt.width bs) :: bufferValues dt stride n (List.drop stride bs)

/-- A numpy array: its shape and its flat data in row-major (C) order.
reshape keeps the flat data and replaces the shape. -/
structure NDArray where
  shape : List Nat
  data : List Val
deriving DecidableEq, Repr

/-- Elementwise value equality of arrays (numpy ==/array_equal semantics on
the modelled values: NaN compares unequal to everything). -/
def NDArray.veq (a b : NDArray) : Bool :=
  a.shape == b.shape &&
  a.data.length == b.data.length &&
  (List.zip a.data b.data).all (fun p =>
    match p.1, p.2 with
    | some x, some y => Q.veq x y
    | _, _ => false)

/-- int of the xnodes, ynodes and znodes header entries:
KeyError when a geometry key never appeared in the header. -/
def headerNodes (h : Headers) : PyOut (Int × Int × Int) :=
  match h.xnodes, h.ynodes, h.znodes with
  | some x, some y, some z => .ret (pyIntOfQ x, pyIntOfQ y, pyIntOfQ z)
  | _, _, _ => .raise .keyError

/-- Embedding of `_fast_binary_decode(f, chunk_size, headers, dtype)`
(ovftools.py lines 145-154): one bulk read of xs*ys*zs*3*chunk_size bytes,
reinterpreted as a C-contiguous (xs*ys*zs, 3) strided view and reshaped to
(zs, ys, xs, 3).  numpy raises for a negative shape entry (ValueError) and
for a buffer with fewer bytes than the view needs (TypeError).  Note: the
returned array is NOT multiplied by valuemultiplier. -/
def _fast_binary_decode (s : ByteStream) (chunk_size : Int) (h : Headers)
    (dt : Dtype) : PyOut NDArray :=
  match headerNodes h with
  | .raise e => .raise e
  | .diverge => .diverge
  | .ret (xi, yi, zi) =>
    if xi < 0 || yi < 0 || zi < 0 || chunk_size < 0 then .raise .valueError
    else
      let xs := xi.toNat
      let ys := yi.toNat
      let zs := zi.toNat
      let c := chunk_size.toNat
      let (buf, _) := pyRead s ((xi * yi * zi * 3) * chunk_size)
      if buf.length < xs * ys * zs * 3 * c then .raise .typeErrorBuffer
      else .ret ⟨[zs, ys, xs, 3], bufferValues dt c (xs * ys * zs * 3) buf⟩

/-- Embedding of `_fast_binary_decode_scalars(f, chunk_size, headers, dtype)`
(ovftools.py lines 157-166): as the vector decode but one value per cell,
shaped (zs, ys, xs).  Also not multiplied by valuemultiplier. -/
def _fast_binary_decode_scalars (s : ByteStream) (chunk_size : Int)
    (h : Headers) (dt : Dtype) : PyOut NDArray :=
  match headerNodes h with
  | .raise e => .raise e
  | .diverge => .diverge
  | .ret (xi, yi, zi) =>
    if xi < 0 || yi < 0 || zi < 0 || chunk_size < 0 then .raise .valueError
    else
      let xs := xi.toNat
      let ys := yi.toNat
      let zs := zi.toNat
      let c := chunk_size.toNat
      let (buf, _) := pyRead s ((xi * yi * zi) * chunk_size)
      if buf.length < xs * ys * zs * c then .raise .typeErrorBuffer
      else .ret ⟨[zs, ys, xs], bufferValues dt c (xs * ys * zs) buf⟩

/-- The line loop of `_text_decode`: reads one line per cell and parses its
first three whitespace-separated tokens with float() (IndexError when a
line has fewer than three tokens, ValueError on an unparsable token),
returning the 3n raw values in cell order. -/
def textLoop : Nat → ByteStream → PyOut (List Q)
  | 0, _ => .ret []
  | n + 1, s =>
    let (lb, s2) := pyReadline s
    let toks := splitWS (stripL (decodeAscii lb))
    match toks.get? 0, toks.get? 1, toks.get? 2 with
    | some t0, some t1, some t2 =>
      match parsePyFloat t0, parsePyFloat t1, parsePyFloat t2 with
      | some a, some b, some c =>
        match textLoop n s2 with
        | .ret vs => .ret (a :: b :: c :: vs)
        | .raise e => .raise e
        | .diverge => .diverge
      | _, _, _ => .raise .valueError
    | _, _, _ => .raise .indexError

/-- Embedding of `_text_decode(f, headers)` (ovftools.py lines 130-142):
an empty (zs, ys, xs, 3) array filled one line per cell in z-major order,
then multiplied elementwise by headers.get("valuemultiplier", 1). -/
def _text_decode (s : ByteStream) (h : Headers) : PyOut NDArray :=
  match headerNodes h with
  | .raise e => .raise e
  | .diverge => .diverge
  | .ret (xi, yi, zi) =>
    if xi < 0 || yi < 0 || zi < 0 then .raise .valueError
    else
      let xs := xi.toNat
      let ys := yi.toNat
      let zs := zi.toNat
      match textLoop (zs * ys * xs) s with
      | .ret vs =>
        let m := h.valuemultiplier.getD ⟨1, 1⟩
        .ret ⟨[zs, ys, xs, 3], vs.map (fun v => some (Q.mul v m))⟩
      | .raise e => .raise e
      | .diverge => .diverge

/-- Embedding of `unpack(path)` (ovftools.py lines 32-43): read the header,
then dispatch on headers["data_type"][3].  Text goes to `_text_decode`,
Binary parses the chunk size from token 4, resolves the byte order and goes
to `_fast_binary_decode`; any other token falls off the if/elif chain and
the function returns Python None (`Option.none`). -/
def unpack (file : ByteStream) : PyOut (Option NDArray) :=
  match _read_header file with
  | .raise e => .raise e
  | .diverge => .diverge
  | .ret (h, s) =>
    match h.data_type.get? 3 with
    | none => .raise .indexError
    | some t =>
      if t == STR "Text" then
        match _text_decode s h with
        | .ret a => .ret (some a)
        | .raise e => .raise e
        | .diverge => .diverge
      else if t == STR "Binary" then
        match h.data_type.get? 4 with
        | none => .raise .indexError
        | some cs =>
          match parsePyInt cs with
          | none => .raise .valueError
          | some chunk =>
            match _endianness s chunk with
            | .raise e => .raise e
            | .diverge => .diverge
            | .ret (dt, s2) =>
              match _fast_binary_decode s2 chunk h dt with
              | .ret a => .ret (some a)
              | .raise e => .raise e
              | .diverge => .diverge
      else .ret none

/-- Embedding of `unpack_scalars(path)` (ovftools.py lines 181-192): as
`unpack` but only the Binary branch exists, dispatching to
`_fast_binary_decode_scalars`; every other data-type token raises
NotImplementedError. -/
def unpack_scalars (file : ByteStream) : PyOut NDArray :=
  match _read_header file with
  | .raise e => .raise e
  | .diverge => .diverge
  | .ret (h, s) =>
    match h.data_type.get? 3 with
    | none => .raise .indexError
    | some t =>
      if t == STR "Binary" then
        match h.data_type.get? 4 with
        | none => .raise .indexError
        | some cs =>
          match parsePyInt cs with
          | none => .raise .valueError
          | some chunk =>
            match _endianness s chunk with
            | .raise e => .raise e
            | .diverge => .diverge
            | .ret (dt, s2) => _fast_binary_decode_scalars s2 chunk h dt
      else .raise .notImplementedError

/-- A filesystem path as pathlib sees it here: the string form of the parent
directory and the final component. -/
structure PyPath where
  parent : String
  name : String
deriving DecidableEq, Repr

/-- Model of pathlib suffix: the final dot-separated extension with its dot,
or the empty string for a name without a dot. -/
def pathSuffix (name : String) : List Char :=
  match splitOnL (STR ".") name.toList with
  | [] => []
  | [_] => []
  | parts => '.' :: parts.getLastD []

/-- A directory listing: filenames with the byte contents of each file.  The
filesystem itself maps a directory (as its component list) to its listing. -/
abbrev DirListing : Type := List (String × ByteStream)

/-- Model of the glob pattern m*.ovf on a filename: leading m, trailing
.ovf (the star matches any characters, and the leading literal m means no
hidden-file subtleties arise). -/
def globMatch (name : String) : Bool :=
  isPrefixL (STR "m") name.toList && isPrefixL (STR "fvo.") name.toList.reverse

/-- Stable insertion of an element into a sorted list (elements less than or
equal to x stay in front). -/
def insertLe (le : α → α → Bool) (x : α) : List α → List α
  | [] => [x]
  | y :: ys => if le y x then y :: insertLe le x ys else x :: y :: ys

/-- Stable insertion sort; agrees with Python sorted() for a total preorder. -/
def insertionSort (le : α → α → Bool) : List α → List α
  | [] => []
  | x :: xs => insertLe le x (insertionSort le xs)

/-- Lexicographic order on code points, the Python str comparison used by
sorted() on the paths of one directory. -/
def strLe (a b : List Char) : Bool :=
  match a, b with
  | [], _ => true
  | _ :: _, [] => false
  | x :: xs, y :: ys => x.toNat < y.toNat || (x == y && strLe xs ys)

/-- sorted(path.glob("m*.ovf")): the matching directory entries in
lexicographic filename order (the paths share the directory, so pathlib
path order is filename order). -/
def sortedGlob (listing : DirListing) : DirListing :=
  insertionSort (fun a b => strLe a.1.toList b.1.toList)
    (listing.filter (fun e => globMatch e.1))

/-- The list comprehension [unpack(f) for f in files]: left to right, the
first exception or divergence aborting the whole comprehension. -/
def unpackAll : DirListing → PyOut (List (Option NDArray))
  | [] => .ret []
  | f :: fs =>
    match unpack f.2 with
    | .raise e => .raise e
    | .diverge => .diverge
    | .ret a =>
      match unpackAll fs with
      | .ret as => .ret (a :: as)
      | .raise e => .raise e
      | .diverge => .diverge

/-- Checks that every comprehension result is an array of the given shape,
collecting their flat data. -/
def collectShape (sh : List Nat) : List (Option NDArray) → Option (List (List Val))
  | [] => some []
  | none :: _ => none
  | some a :: r =>
    if a.shape == sh then (collectShape sh r).map (fun ds => a.data :: ds) else none

/-- Result of np.array on the comprehension list: a stacked numeric array
when every element is an array of one common shape, the empty float array
for the empty list, and otherwise an object-dtype array, modelled only by
its length (no claim depends on its contents). -/
inductive NpStacked
  | arr (a : NDArray)
  | objectArr (n : Nat)
deriving DecidableEq, Repr

/-- Model of np.array([...]) over the decoded results. -/
def npStack (xs : List (Option NDArray)) : NpStacked :=
  match xs with
  | [] => .arr ⟨[0], []⟩
  | some a :: _ =>
    match collectShape a.shape xs with
    | some ds => .arr ⟨xs.length :: a.shape, ds.flatten⟩
    | none => .objectArr xs.length
  | none :: _ => .objectArr xs.length

/-- Embedding of `group_unpack(path)` (ovftools.py lines 169-178).  The
filesystem argument gives the listing of each directory (a directory is
addressed by its component list).  With a .out suffix the files are globbed
in the path itself; with a .ovf suffix in the parent of the path; any other
suffix leaves the local name files unassigned, so the comprehension raises
NameError.  tqdm only wraps the iteration and does not change it. -/
def group_unpack (fs : List String → DirListing) (path : PyPath) :
    PyOut NpStacked :=
  if pathSuffix path.name == STR ".out" then
    match unpackAll (sortedGlob (fs [path.parent, path.name])) with
    | .ret xs => .ret (npStack xs)
    | .raise e => .raise e
    | .diverge => .diverge
  else if pathSuffix path.name == STR ".ovf" then
    match unpackAll (sortedGlob (fs [path.parent])) with
    | .ret xs => .ret (npStack xs)
    | .raise e => .raise e
    | .diverge => .diverge
  else .raise .nameError

/-- Little-endian control-mark bytes for width 4: the float 1234567.0 has
IEEE-754 single word 0x4996B438 = 1234613304. -/
def markLE4 : List Nat := (natToBytesBE 4 1234613304).reverse

/-- Little-endian bytes of an IEEE-754 single word. -/
def f32le (word : Nat) : List Nat := (natToBytesBE 4 word).reverse

/-- Concrete binary vector OVF file: nx = 2, ny = nz = 1, width 4,
little-endian, valuemultiplier 2, payload 1.0 .. 6.0 (IEEE single words
0x3F800000, 0x40000000, 0x40400000, 0x40800000, 0x40A00000, 0x40C00000). -/
def c1File : ByteStream :=
  asciiBytes "# xnodes: 2\n# ynodes: 1\n# znodes: 1\n# valuemultiplier: 2\n# Begin: Data Binary 4\n"
  ++ markLE4
  ++ f32le 1065353216 ++ f32le 1073741824 ++ f32le 1077936128
  ++ f32le 1082130432 ++ f32le 1084227584 ++ f32le 1086324736

/-- What `unpack` actually returns on `c1File`: the raw payload values,
shaped (1, 1, 2, 3). -/
def c1CodeArray : NDArray :=
  ⟨[1, 1, 2, 3],
   [some ⟨1, 1⟩, some ⟨2, 1⟩, some ⟨3, 1⟩, some ⟨4, 1⟩, some ⟨5, 1⟩, some ⟨6, 1⟩]⟩

/-- What the claim predicts on `c1File`: the payload values scaled by the
valuemultiplier 2 of the header. -/
def c1ClaimArray : NDArray :=
  ⟨[1, 1, 2, 3],
   [some ⟨2, 1⟩, some ⟨4, 1⟩, some ⟨6, 1⟩, some ⟨8, 1⟩, some ⟨10, 1⟩, some ⟨12, 1⟩]⟩

/-- C1.  On a binary vector file the decode has the declared shape
(nz, ny, nx, 3) and the declared element order, but the fast binary path
never multiplies by valuemultiplier: on `c1File` (valuemultiplier 2,
payload 1..6) `unpack` returns the raw payload, which differs in value from
the claimed scaled array.  The shape/order part of the claim is visible in
the returned array; the scaling part fails. -/
theorem c1_fast_binary_decode_unscaled :
    unpack c1File = .ret (some c1CodeArray) ∧
    NDArray.veq c1CodeArray c1ClaimArray = false := by decide

/-- Concrete binary scalar OVF file: nx = ny = nz = 1, width 4,
little-endian, valuemultiplier 2, payload 3.0. -/
def c2File : ByteStream :=
  asciiBytes "# xnodes: 1\n# ynodes: 1\n# znodes: 1\n# valuemultiplier: 2\n# Begin: Data Binary 4\n"
  ++ markLE4 ++ f32le 1077936128

/-- What `unpack_scalars` actually returns on `c2File`: the raw value 3. -/
def c2CodeArray : NDArray := ⟨[1, 1, 1], [some ⟨3, 1⟩]⟩

/-- What the claim predicts on `c2File`: 3 scaled by valuemultiplier 2. -/
def c2ClaimArray : NDArray := ⟨[1, 1, 1], [some ⟨6, 1⟩]⟩

/-- C2.  The scalar binary decode (and likewise the vector one, see C1)
does not multiply by valuemultiplier: on `c2File` (valuemultiplier 2,
payload 3.0) `unpack_scalars` returns 3, not 6. -/
theorem c2_scalar_decode_unscaled :
    unpack_scalars c2File = .ret c2CodeArray ∧
    NDArray.veq c2CodeArray c2ClaimArray = false := by decide

/-- Text OVF file logically identical to `c3BinFile`: 1x1x1 grid,
valuemultiplier 2, cell values (1, 2, 3). -/
def c3TextFile : ByteStream :=
  asciiBytes "# xnodes: 1\n# ynodes: 1\n# znodes: 1\n# valuemultiplier: 2\n# Begin: Data Text\n1 2 3\n"

/-- Binary OVF file logically identical to `c3TextFile`. -/
def c3BinFile : ByteStream :=
  asciiBytes "# xnodes: 1\n# ynodes: 1\n# znodes: 1\n# valuemultiplier: 2\n# Begin: Data Binary 4\n"
  ++ markLE4 ++ f32le 1065353216 ++ f32le 1073741824 ++ f32le 1077936128

/-- C3.  Text and binary encodings of the same data decode differently
whenever valuemultiplier is not 1, because `_text_decode` applies the
multiplier and `_fast_binary_decode` does not: on the logically identical
pair above the text file decodes to (2, 4, 6) and the binary file to
(1, 2, 3), which differ in value. -/
theorem c3_text_binary_disagree :
    unpack c3TextFile = .ret (some ⟨[1, 1, 1, 3], [some ⟨2, 1⟩, some ⟨4, 1⟩, some ⟨6, 1⟩]⟩) ∧
    unpack c3BinFile = .ret (some ⟨[1, 1, 1, 3], [some ⟨1, 1⟩, some ⟨2, 1⟩, some ⟨3, 1⟩]⟩) ∧
    NDArray.veq ⟨[1, 1, 1, 3], [some ⟨2, 1⟩, some ⟨4, 1⟩, some ⟨6, 1⟩]⟩
      ⟨[1, 1, 1, 3], [some ⟨1, 1⟩, some ⟨2, 1⟩, some ⟨3, 1⟩]⟩ = false := by decide

/-- A file whose header ends (without a Begin: Data marker line) before end
of stream. -/
def c4Stream : ByteStream := asciiBytes "# truncated header\n"

/-- C4.  On a stream that reaches end of file before any Begin: Data line,
`_read_header` diverges: readline() returns the empty byte string forever,
so the while loop never exits and no error is raised — the code loops
forever instead of failing with a truncated-header error. -/
theorem c4_truncated_header_diverges :
    _read_header c4Stream = .diverge ∧ _read_header [] = .diverge := by decide

/-- A directory listing with no file matching m*.ovf. -/
def c5Listing : DirListing := [("notes.txt", [])]

/-- Filesystem with that single directory. -/
def c5fs : List String → DirListing :=
  fun d => if d = ["/data", "run.out"] then c5Listing else []

/-- The .out directory path for `c5fs`. -/
def c5path : PyPath := ⟨"/data", "run.out"⟩

/-- C5 counterexample.  On a directory with zero matching files,
`group_unpack` raises nothing: it returns np.array([]), the empty array of
shape (0,). -/
theorem c5_empty_group_returns_empty_array :
    group_unpack c5fs c5path = .ret (.arr ⟨[0], []⟩) ∧
    (group_unpack c5fs c5path).isRaise = false := by decide

/-- A file whose data-section marker carries the unknown encoding token
Weird. -/
def c6File : ByteStream :=
  asciiBytes "# xnodes: 1\n# ynodes: 1\n# znodes: 1\n# Begin: Data Weird 4\n"

/-- C6 counterexample.  On an encoding token that is neither Text nor
Binary, `unpack` raises nothing: it falls off the if/elif chain and returns
Python None. -/
theorem c6_unknown_token_returns_none :
    unpack c6File = .ret none ∧ (unpack c6File).isRaise = false := by decide

/-- A 4-byte control mark matching the magic constant under neither byte
order. -/
def c8Mark : ByteStream := [0, 0, 0, 0]

/-- C8.  When the control mark matches neither interpretation the error
branch evaluates hex(buffer) with buffer a bytes object, which raises
TypeError before the IOError carrying the bytes and width is ever
constructed: the exception actually raised carries neither the raw bytes
nor the width. -/
theorem c8_no_match_raises_typeerror :
    _endianness c8Mark 4 = .raise .typeErrorHexBytes := by decide

/-- C5, amended.  When the path has the .out suffix and zero files in it
match m*.ovf, `group_unpack` performs no decode and returns the empty array
of shape (0,); no error is raised. -/
theorem c5_amended_empty_group (fs : List String → DirListing) (p : PyPath)
    (hsuf : pathSuffix p.name = STR ".out")
    (hempty : (fs [p.parent, p.name]).filter (fun e => globMatch e.1) = []) :
    group_unpack fs p = .ret (.arr ⟨[0], []⟩) := by
  unfold group_unpack sortedGlob
  rw [hsuf, hempty]
  simp [insertionSort, unpackAll, npStack]

/-- C5 witness: the amended statement applied to a concrete directory
containing one non-matching file. -/
def c5wListing : DirListing := [("table.txt", []), ("m0.out", [])]

/-- Filesystem for the C5 witness. -/
def c5wfs : List String → DirListing :=
  fun d => if d = ["/runs", "sweep.out"] then c5wListing else []

/-- C5 witness theorem. -/
theorem c5_amended_empty_group_witness :
    group_unpack c5wfs ⟨"/runs", "sweep.out"⟩ = .ret (.arr ⟨[0], []⟩) :=
  c5_amended_empty_group c5wfs ⟨"/runs", "sweep.out"⟩ (by decide) (by decide)

/-- C6, amended.  Whenever the header parses and its data-type token 3 is
neither Text nor Binary, `unpack` returns Python None and raises nothing. -/
theorem c6_amended_unknown_token (file : ByteStream) (h : Headers)
    (s : ByteStream) (t : List Char)
    (hread : _read_header file = .ret (h, s))
    (ht : h.data_type.get? 3 = some t)
    (hnt : t ≠ STR "Text") (hnb : t ≠ STR "Binary") :
    unpack file = .ret none := by
  unfold unpack
  rw [hread]
  simp only [ht]
  rw [if_neg (by simp [hnt]), if_neg (by simp [hnb])]

/-- C6 witness: the amended statement applied to the concrete file with the
token Weird. -/
theorem c6_amended_unknown_token_witness : unpack c6File = .ret none :=
  c6_amended_unknown_token c6File _ _ (STR "Weird") rfl rfl (by decide) (by decide)

/-- C10.  On any path whose suffix is neither .out nor .ovf, the variable
files of `group_unpack` is never assigned and the call raises NameError,
touching no file. -/
theorem c10_bad_suffix_raises_nameerror (fs : List String → DirListing)
    (p : PyPath)
    (hout : pathSuffix p.name ≠ STR ".out")
    (hovf : pathSuffix p.name ≠ STR ".ovf") :
    group_unpack fs p = .raise .nameError := by
  unfold group_unpack
  rw [if_neg (by simp [hout]), if_neg (by simp [hovf])]

/-- C10 witness: a .txt path over an arbitrary filesystem. -/
theorem c10_bad_suffix_raises_nameerror_witness :
    group_unpack (fun _ => []) ⟨"/data", "notes.txt"⟩ = .raise .nameError :=
  c10_bad_suffix_raises_nameerror (fun _ => []) ⟨"/data", "notes.txt"⟩
    (by decide) (by decide)
/-- C7.  For w in {4, 8} with at least w bytes available, `_endianness`
consumes exactly w bytes and resolves the byte order by testing the
big-endian interpretation of those bytes against the magic constant first,
then the little-endian one: whichever matches is returned. -/
theorem c7_endianness_detection (s : ByteStream) (w : Int)
    (hw : w = 4 ∨ w = 8) (hlen : w.toNat ≤ s.length) :
    (valEq (decodeFloatBE w.toNat (List.take w.toNat s)) (magicValue w.toNat) = true →
      _endianness s w = .ret (⟨ByteOrder.big, w.toNat⟩, List.drop w.toNat s)) ∧
    (valEq (decodeFloatBE w.toNat (List.take w.toNat s)) (magicValue w.toNat) = false →
      valEq (decodeFloatBE w.toNat (List.take w.toNat s).reverse) (magicValue w.toNat) = true →
      _endianness s w = .ret (⟨ByteOrder.little, w.toNat⟩, List.drop w.toNat s)) := by
  have hT : (List.take w.toNat s).length = w.toNat := by
    rw [List.length_take]; omega
  rcases hw with h | h <;> subst h <;>
    refine ⟨fun hbig => ?_, fun hnbig hlit => ?_⟩ <;>
    simp_all [_endianness, pyRead, structUnpack1, dtypeValue]

/-- Stream starting with the big-endian control-mark bytes of 1234567.0. -/
def c7Stream : ByteStream := natToBytesBE 4 1234613304 ++ [99]

/-- C7 witness: on a big-endian mark of width 4 the detector returns the
big-endian format and leaves exactly the payload behind. -/
theorem c7_endianness_detection_witness :
    _endianness c7Stream 4 = .ret (⟨ByteOrder.big, 4⟩, [99]) := by
  rw [(c7_endianness_detection c7Stream 4 (Or.inl rfl) (by decide)).1 (by decide)]
  decide

/-- When every file of the comprehension decodes to an array, `unpackAll`
returns exactly those arrays, in order. -/
theorem unpackAll_of_map (l : DirListing) (as : List NDArray)
    (h : l.map (fun f => unpack f.2) = as.map (fun a => PyOut.ret (some a))) :
    unpackAll l = .ret (as.map some) := by
  induction l generalizing as with
  | nil =>
    cases as with
    | nil => simp [unpackAll]
    | cons a as2 => simp at h
  | cons f fs ih =>
    cases as with
    | nil => simp at h
    | cons a as2 =>
      simp only [List.map_cons, List.cons.injEq] at h
      obtain ⟨h1, h2⟩ := h
      simp [unpackAll, h1, ih as2 h2]

/-- `collectShape` succeeds on a list of arrays of one common shape. -/
theorem collectShape_map_some (sh : List Nat) (as : List NDArray)
    (h : ∀ a ∈ as, a.shape = sh) :
    collectShape sh (as.map some) = some (as.map NDArray.data) := by
  induction as with
  | nil => simp [collectShape]
  | cons a as2 ih =>
    have ha : a.shape = sh := h a (by simp)
    simp [collectShape, ha, ih (fun b hb => h b (by simp [hb]))]

/-- np.array stacks a nonempty list of equal-shape arrays along a new
leading axis. -/
theorem npStack_of_shapes (as : List NDArray) (sh : List Nat)
    (hsh : ∀ a ∈ as, a.shape = sh) (hne : as ≠ []) :
    npStack (as.map some) = .arr ⟨as.length :: sh, (as.map NDArray.data).flatten⟩ := by
  cases as with
  | nil => exact absurd rfl hne
  | cons a as2 =>
    have ha : a.shape = sh := hsh a (by simp)
    have hc := collectShape_map_some sh (a :: as2) hsh
    simp only [List.map_cons] at hc
    simp [npStack, ha, hc]

/-- A raised exception at any position of the comprehension, with every
earlier file returning normally, aborts the whole comprehension with that
exception. -/
theorem unpackAll_append_raise (pre : DirListing) (f : String × ByteStream)
    (post : DirListing) (e : PyError)
    (hpre : ∀ g ∈ pre, ∃ a, unpack g.2 = PyOut.ret a)
    (hf : unpack f.2 = .raise e) :
    unpackAll (pre ++ f :: post) = .raise e := by
  induction pre with
  | nil => simp [unpackAll, hf]
  | cons g gs ih =>
    obtain ⟨a, ha⟩ := hpre g (by simp)
    simp [unpackAll, ha, ih (fun g2 hg2 => hpre g2 (by simp [hg2]))]

/-- C9.  On a .out directory: (1) when every matching file decodes to an
array and all those arrays share one shape, `group_unpack` returns the
stack of the decoded arrays along a new leading axis, in sorted filename
order, the leading axis length being the number of matching files; (2) when
the decode of some matching file raises (the earlier ones in sort order having
decoded normally), the whole call raises that exception and no series is
returned. -/
theorem c9_group_unpack_stacks (fs : List String → DirListing) (p : PyPath)
    (hsuf : pathSuffix p.name = STR ".out") :
    (∀ (as : List NDArray) (sh : List Nat),
      (sortedGlob (fs [p.parent, p.name])).map (fun f => unpack f.2)
        = as.map (fun a => PyOut.ret (some a)) →
      (∀ a ∈ as, a.shape = sh) → as ≠ [] →
      group_unpack fs p
        = .ret (.arr ⟨as.length :: sh, (as.map NDArray.data).flatten⟩) ∧
      as.length = (sortedGlob (fs [p.parent, p.name])).length) ∧
    (∀ (pre : DirListing) (f : String × ByteStream) (post : DirListing)
        (e : PyError),
      sortedGlob (fs [p.parent, p.name]) = pre ++ f :: post →
      (∀ g ∈ pre, ∃ a, unpack g.2 = PyOut.ret a) →
      unpack f.2 = .raise e →
      group_unpack fs p = .raise e) := by
  constructor
  · intro as sh hdec hsh hne
    have h1 := unpackAll_of_map _ as hdec
    have h2 := npStack_of_shapes as sh hsh hne
    constructor
    · unfold group_unpack
      rw [hsuf]
      simp [h1, h2]
    · have hlen := congrArg List.length hdec
      simpa using hlen.symm
  · intro pre f post e hsplit hpre hf
    have h1 := unpackAll_append_raise pre f post e hpre hf
    unfold group_unpack
    rw [hsuf, hsplit]
    simp [h1]

/-- First step file for the C9 witness: 1x1x1 binary vector (1, 2, 3). -/
def c9FileA : ByteStream :=
  asciiBytes "# xnodes: 1\n# ynodes: 1\n# znodes: 1\n# Begin: Data Binary 4\n"
  ++ markLE4 ++ f32le 1065353216 ++ f32le 1073741824 ++ f32le 1077936128

/-- Second step file for the C9 witness: 1x1x1 binary vector (4, 5, 6). -/
def c9FileB : ByteStream :=
  asciiBytes "# xnodes: 1\n# ynodes: 1\n# znodes: 1\n# Begin: Data Binary 4\n"
  ++ markLE4 ++ f32le 1082130432 ++ f32le 1084227584 ++ f32le 1086324736

/-- Filesystem for the C9 witness, listed out of sort order on purpose. -/
def c9fs : List String → DirListing :=
  fun d =>
    if d = ["/data", "run.out"] then
      [("m000001.ovf", c9FileB), ("m000000.ovf", c9FileA), ("table.txt", [])]
    else []

/-- The .out directory path for the C9 witness. -/
def c9path : PyPath := ⟨"/data", "run.out"⟩

/-- C9 witness: two decodable step files stack into a leading axis of
length 2 in filename order, even though the directory listing order was
reversed. -/
theorem c9_group_unpack_stacks_witness :
    group_unpack c9fs c9path =
      .ret (.arr ⟨[2, 1, 1, 1, 3],
        [some ⟨1, 1⟩, some ⟨2, 1⟩, some ⟨3, 1⟩,
         some ⟨4, 1⟩, some ⟨5, 1⟩, some ⟨6, 1⟩]⟩) := by
  have h := ((c9_group_unpack_stacks c9fs c9path (by decide)).1
    [⟨[1, 1, 1, 3], [some ⟨1, 1⟩, some ⟨2, 1⟩, some ⟨3, 1⟩]⟩,
     ⟨[1, 1, 1, 3], [some ⟨4, 1⟩, some ⟨5, 1⟩, some ⟨6, 1⟩]⟩] [1, 1, 1, 3]
    (by decide) (by decide) (by decide)).1
  rw [h]
  decide
